import Mathlib

/-!
Verification of the ai-health repository's core logic: the response
normalizer (`cleanAndParseJSON`), the memoization cache keys, the screen-flow
controller of `App`, the session-state update handlers, and the
external-service adapter shells from `services/geminiService`.

Conventions of the shallow embedding:
* JavaScript strings are Lean `String` / `List Char`; `.indexOf`,
  `.lastIndexOf`, `.split`, `.trim`, `.toLowerCase` and `.replace(/…/g)` are
  translated character by character below.
* ISO timestamp strings are modelled as `Nat` instants (milliseconds since
  epoch); a stored date compared at date-only granularity is modelled as a
  `Nat` calendar-day index.
* `async` adapters are modelled as pure functions taking the outcome of the
  awaited network call as an explicit `Except String _` argument; a value
  thrown past a function's boundary is an `Except.error` result.
* Values produced by `JSON.parse` are untyped at runtime (the TypeScript
  casts do not convert), so they are modelled by the `Json` type below.
-/

/-- Runtime JSON values as produced by `JSON.parse`. Number literals keep
their source lexeme. -/
inductive Json where
  | null
  | bool (b : Bool)
  | num (lit : String)
  | str (s : String)
  | arr (elems : List Json)
  | obj (fields : List (String × Json))
deriving Repr

/-- JSON insignificant whitespace (per the `JSON.parse` grammar). -/
def isJsonWs (c : Char) : Bool :=
  c = ' ' || c = '\t' || c = '\n' || c = '\r'

/-- Skip JSON whitespace. -/
def skipWs : List Char → List Char
  | [] => []
  | c :: cs => if isJsonWs c then skipWs cs else c :: cs

def isDigitChar (c : Char) : Bool := '0' ≤ c && c ≤ '9'

def isHexChar (c : Char) : Bool :=
  isDigitChar c || ('a' ≤ c && c ≤ 'f') || ('A' ≤ c && c ≤ 'F')

def hexVal (c : Char) : Nat :=
  if isDigitChar c then c.toNat - '0'.toNat
  else if 'a' ≤ c && c ≤ 'f' then c.toNat - 'a'.toNat + 10
  else c.toNat - 'A'.toNat + 10

/-- Four hex digits of a `\uXXXX` escape. -/
def parseHex4 : List Char → Option (Nat × List Char)
  | a :: b :: c :: d :: rest =>
    if isHexChar a && isHexChar b && isHexChar c && isHexChar d then
      some (((hexVal a * 16 + hexVal b) * 16 + hexVal c) * 16 + hexVal d, rest)
    else none
  | _ => none

/-- Body of a JSON string literal, after the opening quote. -/
def parseStringBody : Nat → List Char → List Char → Option (String × List Char)
  | 0, _, _ => none
  | Nat.succ _, [], _ => none
  | Nat.succ fuel, c :: rest, acc =>
    if c = '"' then some (String.mk acc.reverse, rest)
    else if c = '\\' then
      match rest with
      | [] => none
      | e :: rest2 =>
        if e = '"' then parseStringBody fuel rest2 ('"' :: acc)
        else if e = '\\' then parseStringBody fuel rest2 ('\\' :: acc)
        else if e = '/' then parseStringBody fuel rest2 ('/' :: acc)
        else if e = 'b' then parseStringBody fuel rest2 ('\x08' :: acc)
        else if e = 'f' then parseStringBody fuel rest2 ('\x0C' :: acc)
        else if e = 'n' then parseStringBody fuel rest2 ('\n' :: acc)
        else if e = 'r' then parseStringBody fuel rest2 ('\r' :: acc)
        else if e = 't' then parseStringBody fuel rest2 ('\t' :: acc)
        else if e = 'u' then
          match parseHex4 rest2 with
          | some (n, rest3) => parseStringBody fuel rest3 (Char.ofNat n :: acc)
          | none => none
        else none
    else if c.toNat < 0x20 then none
    else parseStringBody fuel rest (c :: acc)

/-- Optional fraction part of a JSON number. -/
def parseFracPart (cs : List Char) : Option (List Char × List Char) :=
  match cs with
  | '.' :: t =>
    let p := t.span isDigitChar
    if p.1.isEmpty then none else some ('.' :: p.1, p.2)
  | _ => some ([], cs)

/-- Optional exponent part of a JSON number. -/
def parseExpPart (cs : List Char) : Option (List Char × List Char) :=
  match cs with
  | e :: t =>
    if e = 'e' || e = 'E' then
      match t with
      | s :: t2 =>
        if s = '+' || s = '-' then
          let p := t2.span isDigitChar
          if p.1.isEmpty then none else some (e :: s :: p.1, p.2)
        else
          let p := t.span isDigitChar
          if p.1.isEmpty then none else some (e :: p.1, p.2)
      | [] => none
    else some ([], cs)
  | [] => some ([], cs)

/-- JSON number token (grammar of `JSON.parse`: no leading zeros, optional
fraction and exponent). Returns the lexeme. -/
def parseNumber (cs : List Char) : Option (String × List Char) :=
  let sp : List Char × List Char :=
    match cs with
    | '-' :: t => (['-'], t)
    | _ => ([], cs)
  let intp : Option (List Char × List Char) :=
    match sp.2 with
    | '0' :: t => some (sp.1 ++ ['0'], t)
    | c :: t =>
      if isDigitChar c && c ≠ '0' then
        let p := t.span isDigitChar
        some (sp.1 ++ c :: p.1, p.2)
      else none
    | [] => none
  match intp with
  | none => none
  | some (lex1, cs1) =>
    match parseFracPart cs1 with
    | none => none
    | some (frac, cs2) =>
      match parseExpPart cs2 with
      | none => none
      | some (ex, cs3) => some (String.mk (lex1 ++ frac ++ ex), cs3)

mutual

/-- One JSON value, leading whitespace allowed. -/
def parseValue : Nat → List Char → Option (Json × List Char)
  | 0, _ => none
  | Nat.succ fuel, cs =>
    match skipWs cs with
    | 't' :: 'r' :: 'u' :: 'e' :: rest => some (Json.bool true, rest)
    | 'f' :: 'a' :: 'l' :: 's' :: 'e' :: rest => some (Json.bool false, rest)
    | 'n' :: 'u' :: 'l' :: 'l' :: rest => some (Json.null, rest)
    | '"' :: rest =>
      match parseStringBody (rest.length + 1) rest [] with
      | some (s, rest2) => some (Json.str s, rest2)
      | none => none
    | '[' :: rest =>
      match parseElems fuel rest with
      | some (vs, rest2) => some (Json.arr vs, rest2)
      | none => none
    | '\x7b' :: rest =>
      match parseMembers fuel rest with
      | some (ms, rest2) => some (Json.obj ms, rest2)
      | none => none
    | other =>
      match parseNumber other with
      | some (lex, rest) => some (Json.num lex, rest)
      | none => none

/-- Array contents right after `[`: empty or a non-empty element list. -/
def parseElems : Nat → List Char → Option (List Json × List Char)
  | 0, _ => none
  | Nat.succ fuel, cs =>
    match skipWs cs with
    | ']' :: rest => some ([], rest)
    | other => parseElemList fuel other

/-- Non-empty comma-separated element list (no trailing comma). -/
def parseElemList : Nat → List Char → Option (List Json × List Char)
  | 0, _ => none
  | Nat.succ fuel, cs =>
    match parseValue fuel cs with
    | none => none
    | some (v, rest) =>
      match skipWs rest with
      | ',' :: rest2 =>
        match parseElemList fuel rest2 with
        | some (vs, rest3) => some (v :: vs, rest3)
        | none => none
      | ']' :: rest2 => some ([v], rest2)
      | _ => none

/-- Object contents right after the opening brace. -/
def parseMembers : Nat → List Char → Option (List (String × Json) × List Char)
  | 0, _ => none
  | Nat.succ fuel, cs =>
    match skipWs cs with
    | '\x7d' :: rest => some ([], rest)
    | other => parseMemberList fuel other

/-- Non-empty comma-separated member list (no trailing comma). -/
def parseMemberList : Nat → List Char → Option (List (String × Json) × List Char)
  | 0, _ => none
  | Nat.succ fuel, cs =>
    match skipWs cs with
    | '"' :: rest =>
      match parseStringBody (rest.length + 1) rest [] with
      | none => none
      | some (k, rest1) =>
        match skipWs rest1 with
        | ':' :: rest2 =>
          match parseValue fuel rest2 with
          | none => none
          | some (v, rest3) =>
            match skipWs rest3 with
            | ',' :: rest4 =>
              match parseMemberList fuel rest4 with
              | some (ms, rest5) => some ((k, v) :: ms, rest5)
              | none => none
            | '\x7d' :: rest4 => some ([(k, v)], rest4)
            | _ => none
        | _ => none
    | _ => none

end

/-- `JSON.parse` on a character list: one value, then only trailing
whitespace; `none` models a thrown `SyntaxError`. -/
def parseJsonText (cs : List Char) : Option Json :=
  match parseValue (2 * cs.length + 8) cs with
  | some (v, rest) => if (skipWs rest).isEmpty then some v else none
  | none => none

/-- `String.prototype.replace(/pat/g, '')` for a literal pattern: scan left
to right, drop each non-overlapping occurrence. Fuel is the list length. -/
def removeAllGo (pat : List Char) : Nat → List Char → List Char
  | 0, cs => cs
  | Nat.succ fuel, cs =>
    match cs with
    | [] => []
    | c :: rest =>
      if pat.isPrefixOf cs then removeAllGo pat fuel (cs.drop pat.length)
      else c :: removeAllGo pat fuel rest

def removeAll (pat cs : List Char) : List Char := removeAllGo pat cs.length cs

/-- Whitespace removed by `String.prototype.trim`. -/
def isJsTrimWs (c : Char) : Bool :=
  c = ' ' || c = '\t' || c = '\n' || c = '\r' || c = '\x0B' || c = '\x0C' ||
  c = '\xA0' || c = '\uFEFF'

/-- `String.prototype.trim`. -/
def jsTrim (cs : List Char) : List Char :=
  ((cs.dropWhile isJsTrimWs).reverse.dropWhile isJsTrimWs).reverse

/-- `String.prototype.indexOf` for a single character (`none` for `-1`). -/
def jsIndexOf (c : Char) (cs : List Char) : Option Nat :=
  List.findIdx? (fun x => x = c) cs

/-- `String.prototype.lastIndexOf` for a single character. -/
def jsLastIndexOf (c : Char) (cs : List Char) : Option Nat :=
  match List.findIdx? (fun x => x = c) cs.reverse with
  | some k => some (cs.length - 1 - k)
  | none => none

/-- `start` of `cleanAndParseJSON`: first `{` or `[`, whichever is earlier. -/
def jsonStartIndex (cs : List Char) : Option Nat :=
  match jsIndexOf '\x7b' cs, jsIndexOf '[' cs with
  | none, none => none
  | some a, none => some a
  | none, some b => some b
  | some a, some b => some (min a b)

/-- `end` of `cleanAndParseJSON`: last `}` or `]`, whichever is later. -/
def jsonEndIndex (cs : List Char) : Option Nat :=
  match jsLastIndexOf '\x7d' cs, jsLastIndexOf ']' cs with
  | none, none => none
  | some a, none => some a
  | none, some b => some b
  | some a, some b => some (max a b)

/-- The string-munging phase of `cleanAndParseJSON` from
`services/geminiService`: strip ```` ```json ```` fences, then stray
```` ``` ````, trim, cut from the first `{`/`[`, and cut after the last
`}`/`]`. -/
def extractJsonCandidate (s : String) : List Char :=
  let cs := jsTrim (removeAll "```".data (removeAll "```json".data s.data))
  match jsonStartIndex cs with
  | none => cs
  | some st =>
    let cs2 := cs.drop st
    match jsonEndIndex cs2 with
    | none => cs2
    | some en => cs2.take (en + 1)

/-- `cleanAndParseJSON` from `services/geminiService`: munge the text, then
`JSON.parse` it; the `catch` branch returns the empty object. -/
def cleanAndParseJSON (s : String) : Json :=
  match parseJsonText (extractJsonCandidate s) with
  | some v => v
  | none => Json.obj []

example : cleanAndParseJSON "```json\n\x7b\"a\": 1\x7d\n```" =
    Json.obj [("a", Json.num "1")] := rfl
example : cleanAndParseJSON "Here is the result: \x7b\"a\": 1\x7d" =
    Json.obj [("a", Json.num "1")] := rfl
example : cleanAndParseJSON "no json in this text at all" = Json.obj [] := rfl
example : cleanAndParseJSON "42" = Json.num "42" := rfl

/-! ## Domain data model (from `types.ts`) -/

/-- Screen identifiers of the flow controller. -/
inductive ScreenName where
  | WELCOME | LOGIN | SIGNUP | LANGUAGE | LOCATION | MODE_SELECTION | AUTH
  | ENTERPRISE_LOGIN | CONSUMER_LOGIN | GOALS | HEALTH_MODE_SELECT | MEDICINE
  | MEDICINE_VERIFY | PREFERENCES | GENERATING | PLAN_READY | TODAY | JUNK_FOOD
  | PROGRESS | EXPLORE | BIO_MECHANISM | UPGRADE | BUG_REPORT
deriving DecidableEq, Repr

inductive UserMode where
  | CONSUMER | CORPORATE | CUSTOM
deriving DecidableEq, Repr

inductive HealthMode where
  | GENERAL | DISEASE_FOCUSED | MOLECULE_MATCH
deriving DecidableEq, Repr

structure Ingredient where
  name : String
  quantity : String
  calories : Option String
  icon : Option String
  molecularMatch : Option String
deriving DecidableEq, Repr

/-- A meal of a daily plan. The TypeScript `type` field is the string union
`'Breakfast' | 'Lunch' | 'Dinner' | 'Snack'`; at runtime it is an arbitrary
string (values cast from parsed JSON are not validated), so it is modelled
as `String`. -/
structure Meal where
  id : Option String
  title : String
  description : String
  reason : String
  tasteProfile : String
  calories : Option String
  type : String
  ingredients : Option (List Ingredient)
  cookingSteps : Option (List String)
  outsideOption : Option String
  videoLink : Option String
  bioActiveTag : Option String
deriving DecidableEq, Repr

structure MedicineReminder where
  time : String
  instruction : String
deriving DecidableEq, Repr

/-- One `molecularSynergy` entry; `matchScore` is a JS number, modelled as
`Int`. -/
structure SynergyEntry where
  drugMolecule : String
  foodMolecule : String
  matchScore : Int
  source : Option String
deriving DecidableEq, Repr

structure BioMechanism where
  title : String
  summary : String
  visualMetaphor : String
  steps : List String
  molecularSynergy : Option (List SynergyEntry)
deriving DecidableEq, Repr

structure DailyPlan where
  focus : String
  localGreeting : Option String
  meals : List Meal
  medicineReminders : Option (List MedicineReminder)
  advice : Option String
  bioMechanism : Option BioMechanism
  verifiedSources : Option (List String)
deriving DecidableEq, Repr

/-- Daily-progress counters. ISO timestamp strings are modelled as `Nat`
instants in milliseconds (`lastHydrationTime`, `nextHydrationTime`); the
stored last-reset date, which the spec compares at date-only granularity,
is modelled as a `Nat` calendar-day index. -/
structure ProgressMetrics where
  junkCalories : Int
  caloriesTarget : Int
  waterIntake : Int
  waterTarget : Int
  lastResetDate : Nat
  completedMealIndices : List Int
  medicineTakenIndices : List Int
  carriedMeds : Bool
  molecularSynergyScore : Int
  lastHydrationTime : Option Nat
  nextHydrationTime : Option Nat
deriving DecidableEq, Repr

structure PrescriptionItem where
  name : String
  dosage : Option String
  purpose : Option String
  verified : Bool
  type : Option String
deriving DecidableEq, Repr

/-- The session state (`UserState` in `types.ts`). Purely presentational
optional fields not touched by any verified operation (emails, physical
details, images, wearable data, corporate insights) are omitted. -/
structure UserState where
  isAuthenticated : Bool
  isLocalGuest : Bool
  isPremium : Bool
  generationsLeft : Int
  mode : UserMode
  healthMode : HealthMode
  customModeInput : Option String
  goals : List String
  dietType : String
  tastePreference : String
  hasMedicine : Bool
  medicalCondition : Option String
  prescriptionItems : List PrescriptionItem
  language : String
  country : String
  state : String
  city : String
  plan : Option DailyPlan
  progress : ProgressMetrics
deriving DecidableEq, Repr

/-! ## Session-state handlers (from `App` in the main component file) -/

/-- The list update of `handleToggleMeal`: remove the index if present
(via `filter`), append it otherwise. -/
def toggleIndex (l : List Int) (index : Int) : List Int :=
  if l.contains index then l.filter (fun i => i != index)
  else l ++ [index]

/-- `handleToggleMeal`: toggle the index in `completedMealIndices`. -/
def handleToggleMeal (s : UserState) (index : Int) : UserState :=
  { s with progress := { s.progress with
      completedMealIndices := toggleIndex s.progress.completedMealIndices index } }

/-- `handleMealUpdate` applied to a present plan: replace every meal whose
`type` equals the new meal's `type`. -/
def replaceMealByType (meals : List Meal) (newMeal : Meal) : List Meal :=
  meals.map (fun m => if m.type = newMeal.type then newMeal else m)

/-- `handleMealUpdate`: no-op without a plan, otherwise rebuild the plan
with `replaceMealByType`, keeping every other plan field. -/
def handleMealUpdate (s : UserState) (newMeal : Meal) : UserState :=
  match s.plan with
  | none => s
  | some p => { s with plan := some { p with meals := replaceMealByType p.meals newMeal } }

/-- `handleHydrate` at instant `now` (ms): increment `waterIntake`, stamp
`lastHydrationTime`, and set `nextHydrationTime` one hour later. -/
def handleHydrate (s : UserState) (now : Nat) : UserState :=
  { s with progress := { s.progress with
      waterIntake := s.progress.waterIntake + 1,
      lastHydrationTime := some now,
      nextHydrationTime := some (now + 60 * 60 * 1000) } }

/-- The hydration-timer effect's lock condition at instant `now`: locked
exactly while `nextHydrationTime - now` is positive. -/
def hydrationLocked (p : ProgressMetrics) (now : Nat) : Bool :=
  match p.nextHydrationTime with
  | none => false
  | some target => decide ((0 : Int) < (target : Int) - (now : Int))

/-- The countdown text the hydration-timer effect computes while locked
(minutes within the hour, then seconds). -/
def hydrationCountdownText (target now : Nat) : String :=
  let diff := target - now
  toString ((diff % (1000 * 60 * 60)) / (1000 * 60)) ++ "m " ++
    toString ((diff % (1000 * 60)) / 1000) ++ "s"

/-- Label of the hydration button: the countdown while locked, the
call-to-action otherwise. -/
def hydrationButtonLabel (p : ProgressMetrics) (now : Nat) : String :=
  if hydrationLocked p now then
    match p.nextHydrationTime with
    | some target => hydrationCountdownText target now
    | none => ""
  else "+ Drink Water"

/-- Modelled from the spec: the once-per-day progress reset performed at
the first session-state read of a new calendar day. The routine itself is
not among the repository files under review — only the `ProgressMetrics`
declaration (with its `lastResetDate` field) and the initial state are —
so it is modelled from §4.4 of the specification: when the stored
last-reset date differs from the current date, zero the calorie and water
counters and the completed-meal indices and update the reset date;
otherwise leave the state untouched. -/
def resetProgressOnRead (p : ProgressMetrics) (today : Nat) : ProgressMetrics :=
  if p.lastResetDate ≠ today then
    { p with junkCalories := 0, waterIntake := 0, completedMealIndices := [],
             lastResetDate := today }
  else p

/-! ## Screen-flow controller (from `App`) -/

/-- The generation-limit gate of the `GENERATING` effect:
`!userState.isPremium && userState.generationsLeft <= 0`. -/
def generatingGateBlocked (s : UserState) : Bool :=
  !s.isPremium && decide (s.generationsLeft ≤ 0)

/-- State update of the `GENERATING` effect's success continuation: store
the plan, decrement `generationsLeft` unless premium, and derive the
average molecular-synergy score when present (JS `Math.floor` of the mean,
modelled with flooring integer division). -/
def applyPlanSuccess (s : UserState) (plan : DailyPlan) : UserState :=
  let s1 := { s with plan := some plan }
  let s2 :=
    if s1.isPremium then s1
    else { s1 with generationsLeft := s1.generationsLeft - 1 }
  match plan.bioMechanism with
  | some bm =>
    match bm.molecularSynergy with
    | some syn =>
      if syn.length ≠ 0 then
        { s2 with progress := { s2.progress with
            molecularSynergyScore :=
              Int.fdiv (syn.foldl (fun a b => a + b.matchScore) 0) syn.length } }
      else s2
    | none => s2
  | none => s2

/-- Entering the `GENERATING` screen. The adapter's outcome is passed as an
explicit argument; the returned `Bool` records whether the gate let the
plan-generation adapter be invoked at all. -/
def runGeneratingEntry (s : UserState) (adapterResult : Except String DailyPlan) :
    ScreenName × UserState × Bool :=
  if generatingGateBlocked s then (ScreenName.UPGRADE, s, false)
  else
    match adapterResult with
    | Except.ok plan => (ScreenName.TODAY, applyPlanSuccess s plan, true)
    | Except.error _ => (ScreenName.PREFERENCES, s, true)

/-- The three cards of the `HEALTH_MODE_SELECT` screen: General Wellness is
free; the two locked modes route to the paywall unless premium, otherwise
set the health mode and continue to medicine capture. -/
def selectHealthMode (s : UserState) (m : HealthMode) : ScreenName × UserState :=
  match m with
  | HealthMode.GENERAL =>
    (ScreenName.PREFERENCES, { s with healthMode := HealthMode.GENERAL })
  | HealthMode.DISEASE_FOCUSED =>
    if !s.isPremium then (ScreenName.UPGRADE, s)
    else (ScreenName.MEDICINE, { s with healthMode := HealthMode.DISEASE_FOCUSED })
  | HealthMode.MOLECULE_MATCH =>
    if !s.isPremium then (ScreenName.UPGRADE, s)
    else (ScreenName.MEDICINE, { s with healthMode := HealthMode.MOLECULE_MATCH })

/-! ## JavaScript runtime helpers used by the adapters -/

/-- `text || dflt` for strings: the empty string is falsy. -/
def jsStrOr (t dflt : String) : String := if t = "" then dflt else t

/-- `String.prototype.toLowerCase` as a character-wise map. -/
def jsToLower (s : String) : String := String.mk (s.data.map Char.toLower)

/-- `String.prototype.split` with a one-character separator. -/
def jsSplitGo (sep : Char) : List Char → List Char → List String
  | [], acc => [String.mk acc.reverse]
  | c :: rest, acc =>
    if c = sep then String.mk acc.reverse :: jsSplitGo sep rest []
    else jsSplitGo sep rest (c :: acc)

def jsSplit (s : String) (sep : Char) : List String := jsSplitGo sep s.data []

/-- `String.prototype.trim` on a `String`. -/
def jsTrimStr (s : String) : String := String.mk (jsTrim s.data)

/-- `haystack.includes(pat)` (second argument is the haystack). -/
def listIncludes (pat : List Char) : List Char → Bool
  | [] => pat.isEmpty
  | c :: t => if pat.isPrefixOf (c :: t) then true else listIncludes pat t

def jsIncludes (s sub : String) : Bool := listIncludes sub.data s.data

/-- Property read `j[key]` on a runtime value: last writer wins for
duplicate keys, `none` models `undefined`. -/
def jsonLookup (j : Json) (key : String) : Option Json :=
  match j with
  | Json.obj fs => fs.foldl (fun acc kv => if kv.1 = key then some kv.2 else acc) none
  | _ => none

/-- Whether a JSON number lexeme denotes zero (only sign, zeros, dot before
any exponent marker). -/
def numLexemeIsZero (lit : String) : Bool :=
  (lit.data.takeWhile (fun c => !(c = 'e' || c = 'E'))).all
    (fun c => !('1' ≤ c && c ≤ '9'))

/-- JavaScript truthiness of a runtime JSON value. -/
def jsTruthy : Json → Bool
  | Json.null => false
  | Json.bool b => b
  | Json.num lit => !numLexemeIsZero lit
  | Json.str s => !s.isEmpty
  | Json.arr _ => true
  | Json.obj _ => true

/-- `obj[key] || dflt`. -/
def jsonFieldOr (j : Json) (key : String) (dflt : Json) : Json :=
  match jsonLookup j key with
  | some v => if jsTruthy v then v else dflt
  | none => dflt

/-- Property assignment `j[key] = v` on an object; on any other runtime
value the assignment is modelled as a no-op. -/
def setJsonField (j : Json) (key : String) (v : Json) : Json :=
  match j with
  | Json.obj fs => Json.obj ((fs.filter (fun kv => kv.1 ≠ key)) ++ [(key, v)])
  | other => other

/-- `[...new Set(l)]`: deduplicate keeping first occurrences. -/
def dedupeKeepFirst (l : List String) : List String :=
  l.foldl (fun acc u => if acc.contains u then acc else acc ++ [u]) []

/-- `encodeURIComponent`: unreserved ASCII kept, every other UTF-8 byte
percent-encoded in uppercase hex. -/
def uriUnreserved (b : Nat) : Bool :=
  (0x41 ≤ b && b ≤ 0x5A) || (0x61 ≤ b && b ≤ 0x7A) || (0x30 ≤ b && b ≤ 0x39) ||
  b = 0x2D || b = 0x5F || b = 0x2E || b = 0x21 || b = 0x7E || b = 0x2A ||
  b = 0x27 || b = 0x28 || b = 0x29

def hexDigitUpper (n : Nat) : Char :=
  if n < 10 then Char.ofNat ('0'.toNat + n) else Char.ofNat ('A'.toNat + n - 10)

def encodeByte (b : Nat) : List Char :=
  if uriUnreserved b then [Char.ofNat b]
  else ['%', hexDigitUpper (b / 16), hexDigitUpper (b % 16)]

def encodeURIComponentModel (s : String) : String :=
  String.mk ((s.toUTF8.toList.map (fun b => encodeByte b.toNat)).flatten)

/-! ## Memoization cache (`globalCache`) -/

/-- Cache lookup by key (a `Map.get`). -/
def lookupCache (cache : List (String × Json)) (k : String) : Option Json :=
  match cache.find? (fun kv => kv.1 = k) with
  | some kv => some kv.2
  | none => none

/-- Lexicographic order on character lists: the default string comparison
of `Array.prototype.sort` (code-unit order). -/
def charListLe : List Char → List Char → Bool
  | [], _ => true
  | _ :: _, [] => false
  | a :: as, b :: bs => if a < b then true else if b < a then false else charListLe as bs

/-- The order `[...ingredients].sort()` sorts by. -/
def jsStringLe (a b : String) : Prop := charListLe a.data b.data = true

instance : DecidableRel jsStringLe :=
  fun a b => instDecidableEqBool (charListLe a.data b.data) true

theorem charListLe_total : ∀ xs ys : List Char,
    charListLe xs ys = true ∨ charListLe ys xs = true := by
  intro xs
  induction xs with
  | nil => intro ys; left; rfl
  | cons x xs ih =>
    intro ys
    cases ys with
    | nil => right; rfl
    | cons y ys =>
      rcases lt_trichotomy x y with h | h | h
      · left; simp [charListLe, h]
      · subst h
        rcases ih ys with h2 | h2
        · left; simp [charListLe, lt_irrefl, h2]
        · right; simp [charListLe, lt_irrefl, h2]
      · right; simp [charListLe, h]

theorem charListLe_trans : ∀ xs ys zs : List Char,
    charListLe xs ys = true → charListLe ys zs = true → charListLe xs zs = true := by
  intro xs
  induction xs with
  | nil => intro ys zs _ _; rfl
  | cons x xs ih =>
    intro ys zs h1 h2
    cases ys with
    | nil => simp [charListLe] at h1
    | cons y ys =>
      cases zs with
      | nil => simp [charListLe] at h2
      | cons z zs =>
        by_cases hxy : x < y
        · by_cases hyz : y < z
          · simp [charListLe, lt_trans hxy hyz]
          · simp only [charListLe, if_neg hyz] at h2
            by_cases hzy : z < y
            · simp [if_pos hzy] at h2
            · have hyzeq : y = z := le_antisymm (le_of_not_lt hzy) (le_of_not_lt hyz)
              subst hyzeq
              simp [charListLe, hxy]
        · simp only [charListLe, if_neg hxy] at h1
          by_cases hyx : y < x
          · simp [if_pos hyx] at h1
          · have hxyeq : x = y := le_antisymm (le_of_not_lt hyx) (le_of_not_lt hxy)
            subst hxyeq
            simp only [if_neg hxy] at h1
            by_cases hyz : x < z
            · simp [charListLe, hyz]
            · simp only [charListLe, if_neg hyz] at h2 ⊢
              by_cases hzy : z < x
              · simp [if_pos hzy] at h2
              · simp only [if_neg hzy] at h2 ⊢
                exact ih ys zs h1 h2

theorem charListLe_antisymm : ∀ xs ys : List Char,
    charListLe xs ys = true → charListLe ys xs = true → xs = ys := by
  intro xs
  induction xs with
  | nil => intro ys h1 h2; cases ys with
    | nil => rfl
    | cons y ys => simp [charListLe] at h2
  | cons x xs ih =>
    intro ys h1 h2
    cases ys with
    | nil => simp [charListLe] at h1
    | cons y ys =>
      by_cases hxy : x < y
      · have : ¬ y < x := lt_asymm hxy
        simp [charListLe, this, hxy] at h2
      · by_cases hyx : y < x
        · simp [charListLe, hxy, hyx] at h1
        · have hxyeq : x = y := le_antisymm (le_of_not_lt hyx) (le_of_not_lt hxy)
          subst hxyeq
          simp only [charListLe, if_neg hxy] at h1 h2
          rw [ih ys h1 h2]

instance : IsTotal String jsStringLe :=
  ⟨fun a b => charListLe_total a.data b.data⟩

instance : IsTrans String jsStringLe :=
  ⟨fun a b c => charListLe_trans a.data b.data c.data⟩

instance : IsAntisymm String jsStringLe := by
  refine ⟨fun a b h1 h2 => ?_⟩
  cases a with
  | mk da => cases b with
    | mk db => exact congrArg String.mk (charListLe_antisymm da db h1 h2)

/-- The cache key `checkIngredientAvailability` builds:
`` `ing_check_${city.toLowerCase()}_${[...ingredients].sort().join(',')}` ``.
`Array.prototype.sort`'s default comparison is the code-unit order
`jsStringLe`. -/
def ingredientCacheKey (city : String) (ingredients : List String) : String :=
  "ing_check_" ++ jsToLower city ++ "_" ++
    String.intercalate "," (List.insertionSort jsStringLe ingredients)

example :
    ingredientCacheKey "Pune" ["tomato", "rice"] = "ing_check_pune_rice,tomato" := rfl

/-! ## External-service adapters (`services/geminiService`)

Each `async` adapter is modelled as a pure function.  `hasKey` is the
`apiKey` guard; `cached` (or `cache`) is the `globalCache` entry the
function would find; `net` is the outcome of the awaited network call (its
payload the response text, plus extracted grounding entries where the
source reads them), with `Except.error` modelling a promise rejection.
An `Except.error` result means the adapter lets an exception escape. -/

structure LocationResult where
  city : String
  state : String
  country : String
deriving DecidableEq, Repr

/-- `verifyLocationEntry`: fall back to the typed inputs with country
`"India"` when the key is missing, the call throws, or the pipe-split
response has fewer than three fields. -/
def verifyLocationEntry (inputCity inputState : String) (hasKey : Bool)
    (cached : Option LocationResult) (net : Except String String) :
    Except String LocationResult :=
  let fallback : LocationResult := ⟨inputCity, inputState, "India"⟩
  if !hasKey then Except.ok fallback
  else
    match cached with
    | some v => Except.ok v
    | none =>
      match net with
      | Except.error _ => Except.ok fallback
      | Except.ok text =>
        match jsSplit (jsStrOr text "") '|' with
        | a :: b :: c :: _ => Except.ok ⟨jsTrimStr a, jsTrimStr b, jsTrimStr c⟩
        | _ => Except.ok fallback

/-- `detectLocationFromCoords`. -/
def detectLocationFromCoords (hasKey : Bool) (net : Except String String) :
    Except String LocationResult :=
  if !hasKey then Except.ok ⟨"", "", ""⟩
  else
    match net with
    | Except.error _ => Except.ok ⟨"Detected Location", "", ""⟩
    | Except.ok text =>
      match jsSplit (jsStrOr text "") '|' with
      | a :: b :: c :: _ => Except.ok ⟨jsTrimStr a, jsTrimStr b, jsTrimStr c⟩
      | _ => Except.ok ⟨"Detected Location", "", ""⟩

/-- `generateCorporateInsights`: `null` (here `none`) without a key, cached
value, parsed response, `null` on failure. -/
def generateCorporateInsights (hasKey : Bool) (cached : Option Json)
    (net : Except String String) : Except String (Option Json) :=
  if !hasKey then Except.ok none
  else
    match cached with
    | some v => Except.ok (some v)
    | none =>
      match net with
      | Except.ok text => Except.ok (some (cleanAndParseJSON (jsStrOr text "\x7b\x7d")))
      | Except.error _ => Except.ok none

/-- `findCookingVideo`; the grounding/regex URL extraction of the try block
is abstracted as the payload of `body`. -/
def findCookingVideo (hasKey : Bool) (recipeName : String)
    (body : Except String (List String)) : Except String (List String) :=
  let fallback := ["https://www.youtube.com/results?search_query=" ++
    encodeURIComponentModel (recipeName ++ " recipe")]
  if !hasKey then Except.ok []
  else
    match body with
    | Except.ok urls => Except.ok (if urls.isEmpty then fallback else urls.take 3)
    | Except.error _ => Except.ok fallback

/-- `findDeliveryPartners`. -/
def findDeliveryPartners (hasKey : Bool) (cached : Option Json)
    (net : Except String String) : Except String Json :=
  if !hasKey then Except.ok (Json.arr [])
  else
    match cached with
    | some v => Except.ok v
    | none =>
      match net with
      | Except.ok text => Except.ok (cleanAndParseJSON (jsStrOr text "[]"))
      | Except.error _ => Except.ok (Json.arr [])

/-- `findLocalGrocers` delegates to `findDeliveryPartners`. -/
def findLocalGrocers (hasKey : Bool) (cached : Option Json)
    (net : Except String String) : Except String Json :=
  findDeliveryPartners hasKey cached net

/-- `checkIngredientAvailability`, with its order-independent cache key. -/
def checkIngredientAvailability (hasKey : Bool) (city : String)
    (ingredients : List String) (cache : List (String × Json))
    (net : Except String String) : Except String Json :=
  if !hasKey then
    Except.ok (Json.obj [("available", Json.arr (ingredients.map Json.str)),
      ("hardToFind", Json.arr []),
      ("localTip", Json.str "Most items should be available.")])
  else
    match lookupCache cache (ingredientCacheKey city ingredients) with
    | some v => Except.ok v
    | none =>
      match net with
      | Except.ok text => Except.ok (cleanAndParseJSON (jsStrOr text "\x7b\x7d"))
      | Except.error _ =>
        Except.ok (Json.obj [("available", Json.arr (ingredients.map Json.str)),
          ("hardToFind", Json.arr []),
          ("localTip", Json.str "Check local apps for stock.")])

structure LocalService where
  name : String
  url : Option String
  description : String
  rating : Option String
  icon : Option String
  address : Option String
  googleMapsUri : Option String
deriving DecidableEq, Repr

/-- One `Name|Rating|Address|Link` line: kept when it trims into at least
three fields. -/
def pipeLineToService (description : String) (line : String) : Option LocalService :=
  match (jsSplit line '|').map jsTrimStr with
  | p0 :: p1 :: p2 :: rest =>
    some { name := p0, rating := some p1, address := some p2,
           googleMapsUri :=
             (match rest with
              | p3 :: _ => if p3 = "" then none else some p3
              | [] => none),
           url := none, icon := none, description := description }
  | _ => none

/-- `findRestaurantOptions`: pipe-parsed lines, then grounding chunks, then
(throwing into its own catch when still empty) the Zomato/Swiggy links. -/
def findRestaurantOptions (hasKey : Bool) (city dishName : String)
    (cached : Option (List LocalService))
    (net : Except String (String × List (String × String))) :
    Except String (List LocalService) :=
  let catchFallback : List LocalService :=
    [{ name := "Zomato Search", description := "Search on Zomato",
       url := some ("https://www.zomato.com/" ++ jsToLower city ++
         "/restaurants?q=" ++ encodeURIComponentModel dishName),
       rating := none, icon := none, address := none, googleMapsUri := none },
     { name := "Swiggy Search", description := "Search on Swiggy",
       url := some ("https://www.swiggy.com/search?query=" ++
         encodeURIComponentModel dishName),
       rating := none, icon := none, address := none, googleMapsUri := none }]
  if !hasKey then Except.ok []
  else
    match cached with
    | some v => Except.ok v
    | none =>
      match net with
      | Except.error _ => Except.ok catchFallback
      | Except.ok tg =>
        let services := (jsSplit (jsStrOr tg.1 "") '\n').filterMap
          (pipeLineToService ("Best for " ++ dishName))
        let services2 :=
          if services.isEmpty then
            (tg.2.filter (fun g => !g.1.isEmpty && !g.2.isEmpty)).map (fun g =>
              { name := g.2, rating := some "4.5", address := some city,
                googleMapsUri := some g.1, description := "Recommended via Search",
                url := none, icon := none })
          else services
        if services2.isEmpty then Except.ok catchFallback else Except.ok services2

/-- `findPharmacies`. -/
def findPharmacies (hasKey : Bool) (cached : Option (List LocalService))
    (net : Except String String) : Except String (List LocalService) :=
  if !hasKey then Except.ok []
  else
    match cached with
    | some v => Except.ok v
    | none =>
      match net with
      | Except.error _ => Except.ok []
      | Except.ok text =>
        Except.ok ((jsSplit (jsStrOr text "") '\n').filterMap
          (pipeLineToService "Pharmacy"))

/-- `findOnlinePharmacies`; the catch branch returns the hard-coded list of
three services. -/
def findOnlinePharmacies (hasKey : Bool) (cached : Option Json)
    (net : Except String String) : Except String Json :=
  if !hasKey then Except.ok (Json.arr [])
  else
    match cached with
    | some v => Except.ok v
    | none =>
      match net with
      | Except.ok text => Except.ok (cleanAndParseJSON (jsStrOr text "[]"))
      | Except.error _ =>
        Except.ok (Json.arr
          [Json.obj [("name", Json.str "1mg"),
             ("description", Json.str "Wide range of medicines"),
             ("url", Json.str "https://www.1mg.com"),
             ("searchUrlPattern", Json.str "https://www.1mg.com/search/all?name=\x7bQUERY\x7d")],
           Json.obj [("name", Json.str "Apollo Pharmacy"),
             ("description", Json.str "Trusted pharmacy chain"),
             ("url", Json.str "https://www.apollopharmacy.in"),
             ("searchUrlPattern", Json.str "https://www.apollopharmacy.in/search-medicines/\x7bQUERY\x7d")],
           Json.obj [("name", Json.str "Pharmeasy"),
             ("description", Json.str "Discounts and easy returns"),
             ("url", Json.str "https://pharmeasy.in"),
             ("searchUrlPattern", Json.str "https://pharmeasy.in/search/all?name=\x7bQUERY\x7d")]])

def goalJson (label icon : String) : Json :=
  Json.obj [("label", Json.str label), ("icon", Json.str icon)]

def presetGeneralWellness : Json :=
  Json.arr [goalJson "Improve Energy" "⚡", goalJson "Better Sleep" "😴",
    goalJson "Reduce Stress" "🧘", goalJson "Healthy Digestion" "🍃",
    goalJson "Weight Balance" "⚖️", goalJson "Immunity Boost" "🛡️"]

def presetCorporateEmployee : Json :=
  Json.arr [goalJson "Sustained Focus" "🧠", goalJson "Prevent Slump" "📉",
    goalJson "Eye Strain" "👀", goalJson "Stress Management" "💼",
    goalJson "Quick Digestion" "🥗", goalJson "Posture/Back" "🪑"]

/-- `PRESET_GOALS` key search: first key whose lowercase form occurs in the
lowercased context. -/
def presetGoalsFor (context : String) : Option Json :=
  if jsIncludes (jsToLower context) "general wellness" then some presetGeneralWellness
  else if jsIncludes (jsToLower context) "corporate employee" then some presetCorporateEmployee
  else none

/-- `generateGoalsForContext`. -/
def generateGoalsForContext (context : String) (hasKey : Bool)
    (net : Except String String) : Except String Json :=
  match presetGoalsFor context with
  | some goals => Except.ok goals
  | none =>
    if !hasKey then Except.ok presetGeneralWellness
    else
      match net with
      | Except.ok text => Except.ok (cleanAndParseJSON (jsStrOr text "[]"))
      | Except.error _ => Except.ok presetGeneralWellness

/-- `analyzeHealthCondition`. -/
def analyzeHealthCondition (hasKey : Bool) (net : Except String String) :
    Except String (Option Json) :=
  if !hasKey then Except.ok none
  else
    match net with
    | Except.ok text => Except.ok (some (cleanAndParseJSON (jsStrOr text "\x7b\x7d")))
    | Except.error _ =>
      Except.ok (some (Json.obj [("condition", Json.str "Analysis Failed"),
        ("overview", Json.str "Error"), ("items", Json.arr []),
        ("takeaways", Json.arr [Json.str "Consult a doctor"])]))

/-- `generateJunkFoodAdvice`. -/
def generateJunkFoodAdvice (hasKey : Bool) (net : Except String String) :
    Except String Json :=
  if !hasKey then
    Except.ok (Json.obj [("message", Json.str "It's okay."),
      ("adjustment", Json.str "Drink water."),
      ("estimatedCalories", Json.num "300")])
  else
    match net with
    | Except.ok text => Except.ok (cleanAndParseJSON (jsStrOr text "\x7b\x7d"))
    | Except.error _ =>
      Except.ok (Json.obj [("message", Json.str "Okay."),
        ("adjustment", Json.str "Hydrate."),
        ("estimatedCalories", Json.num "250")])

/-- `analyzeNutrition`. -/
def analyzeNutrition (hasKey : Bool) (net : Except String String) :
    Except String Json :=
  if !hasKey then
    Except.ok (Json.obj [("name", Json.str "Food"), ("calories", Json.str "250"),
      ("protein", Json.str "10g"), ("carbs", Json.str "30g"),
      ("fat", Json.str "8g"), ("healthCheck", Json.str "Healthy")])
  else
    match net with
    | Except.ok text => Except.ok (cleanAndParseJSON (jsStrOr text "\x7b\x7d"))
    | Except.error _ =>
      Except.ok (Json.obj [("name", Json.str "Unknown"), ("calories", Json.str "-"),
        ("protein", Json.str "-"), ("carbs", Json.str "-"),
        ("fat", Json.str "-"), ("healthCheck", Json.str "-")])

/-- `analyzeFoodText`. -/
def analyzeFoodText (foodText : String) (hasKey : Bool)
    (net : Except String String) : Except String Json :=
  if !hasKey then
    Except.ok (Json.obj [("name", Json.str foodText), ("calories", Json.str "150"),
      ("protein", Json.str "5g"), ("carbs", Json.str "20g"),
      ("fat", Json.str "5g"), ("healthCheck", Json.str "Moderate")])
  else
    match net with
    | Except.ok text => Except.ok (cleanAndParseJSON (jsStrOr text "\x7b\x7d"))
    | Except.error _ =>
      Except.ok (Json.obj [("name", Json.str foodText), ("calories", Json.str "0"),
        ("protein", Json.str "-"), ("carbs", Json.str "-"),
        ("fat", Json.str "-"), ("healthCheck", Json.str "Unknown")])

/-- `generateRecipeFromImage`. -/
def generateRecipeFromImage (hasKey : Bool) (net : Except String String) :
    Except String Json :=
  if !hasKey then
    Except.ok (Json.obj [("title", Json.str "Simple Dish"),
      ("difficulty", Json.str "Easy"), ("time", Json.str "15m"),
      ("ingredients", Json.arr [Json.str "Food"]),
      ("steps", Json.arr [Json.str "Cook it"])])
  else
    match net with
    | Except.ok text => Except.ok (cleanAndParseJSON (jsStrOr text "\x7b\x7d"))
    | Except.error _ =>
      Except.ok (Json.obj [("title", Json.str "Dish"),
        ("difficulty", Json.str "Medium"), ("time", Json.str "20m"),
        ("ingredients", Json.arr []), ("steps", Json.arr [])])

/-- `simulateWearableData`; the current local time and the device type are
passed in. A `null` parse result makes the field reads throw inside the
try block, landing in the catch. -/
def simulateWearableData (hasKey : Bool) (nowTimeStr deviceType : String)
    (net : Except String String) : Except String Json :=
  let fallback := Json.obj [("steps", Json.num "5240"),
    ("sleepHours", Json.num "7.2"), ("sleepScore", Json.num "82"),
    ("heartRate", Json.num "68"), ("hrv", Json.num "45"),
    ("lastSync", Json.str nowTimeStr), ("deviceType", Json.str deviceType)]
  if !hasKey then Except.ok fallback
  else
    match net with
    | Except.error _ => Except.ok fallback
    | Except.ok text =>
      match cleanAndParseJSON (jsStrOr text "\x7b\x7d") with
      | Json.null => Except.ok fallback
      | data =>
        Except.ok (Json.obj [("steps", jsonFieldOr data "steps" (Json.num "5000")),
          ("sleepHours", jsonFieldOr data "sleepHours" (Json.num "7")),
          ("sleepScore", jsonFieldOr data "sleepScore" (Json.num "75")),
          ("heartRate", jsonFieldOr data "heartRate" (Json.num "72")),
          ("hrv", jsonFieldOr data "hrv" (Json.num "40")),
          ("lastSync", Json.str nowTimeStr), ("deviceType", Json.str deviceType)])

/-- `generateWearableInsight`. -/
def generateWearableInsight (hasKey : Bool) (net : Except String String) :
    Except String String :=
  if !hasKey then Except.ok "Great job tracking!"
  else
    match net with
    | Except.ok t => Except.ok (jsStrOr t "Keep moving!")
    | Except.error _ => Except.ok "Stay active!"

/-- `regenerateMealOption`: the current meal (a runtime value) when the key
is missing or the call throws, the parsed response otherwise. -/
def regenerateMealOption (hasKey : Bool) (currentMeal : Json)
    (net : Except String String) : Except String Json :=
  if !hasKey then Except.ok currentMeal
  else
    match net with
    | Except.ok text => Except.ok (cleanAndParseJSON (jsStrOr text "\x7b\x7d"))
    | Except.error _ => Except.ok currentMeal

/-- `editImageWithGenAI`; the scan of the response parts for inline image
data is abstracted as the payload of `body`. -/
def editImageWithGenAI (hasKey : Bool) (body : Except String (Option String)) :
    Except String (Option String) :=
  if !hasKey then Except.ok none
  else
    match body with
    | Except.ok o => Except.ok o
    | Except.error _ => Except.ok none

/-- `chatWithHealthBot`. -/
def chatWithHealthBot (hasKey : Bool) (net : Except String String) :
    Except String String :=
  if !hasKey then Except.ok "I'm listening..."
  else
    match net with
    | Except.ok t => Except.ok (jsStrOr t "I understand.")
    | Except.error _ => Except.ok "I'm having trouble connecting right now."

/-- `transcribeAudio`. -/
def transcribeAudio (hasKey : Bool) (net : Except String String) :
    Except String String :=
  if !hasKey then Except.ok "Error processing audio."
  else
    match net with
    | Except.ok t => Except.ok (jsStrOr t "")
    | Except.error _ => Except.ok ""

/-- `generateSpeech`; the scan of the response parts for inline audio data
is abstracted as the payload of `body`. -/
def generateSpeech (hasKey : Bool) (body : Except String (Option String)) :
    Except String (Option String) :=
  if !hasKey then Except.ok none
  else
    match body with
    | Except.ok o => Except.ok o
    | Except.error _ => Except.ok none

/-- `analyzeCookingStep`: `.advice || "Looks good!"` on the parsed
response; a `null` parse result makes the property read throw into the
catch. -/
def analyzeCookingStep (hasKey : Bool) (net : Except String String) :
    Except String Json :=
  if !hasKey then Except.ok (Json.str "Looks good!")
  else
    match net with
    | Except.error _ => Except.ok (Json.str "Looks tasty!")
    | Except.ok text =>
      match cleanAndParseJSON (jsStrOr text "\x7b\x7d") with
      | Json.null => Except.ok (Json.str "Looks tasty!")
      | j => Except.ok (jsonFieldOr j "advice" (Json.str "Looks good!"))

/-- `generateDailyPlan`: parse the response, then backfill
`verifiedSources` from the grounding URIs (deduplicated, first five) when
the parsed plan lacks them; its catch clause rethrows, so a network
failure propagates as `Except.error`. Prompt and persona construction,
which only build strings, are not modelled. -/
def generateDailyPlan (net : Except String (String × List String)) :
    Except String Json :=
  match net with
  | Except.error e => Except.error e
  | Except.ok tg =>
    let plan := cleanAndParseJSON (jsStrOr tg.1 "\x7b\x7d")
    match plan with
    | Json.null => Except.error "TypeError: cannot read properties of null"
    | _ =>
      let vs := jsonLookup plan "verifiedSources"
      let missing :=
        match vs with
        | none => true
        | some v =>
          if !(jsTruthy v) then true
          else
            match v with
            | Json.arr a => a.isEmpty
            | Json.str s2 => s2.isEmpty
            | _ => false
      if missing then
        match plan with
        | Json.obj _ =>
          Except.ok (setJsonField plan "verifiedSources"
            (Json.arr (((dedupeKeepFirst tg.2).take 5).map Json.str)))
        | Json.arr _ => Except.ok plan
        | _ => Except.error "TypeError: cannot create property on a primitive"
      else Except.ok plan

/-- `true` exactly on `Except.ok`: the call returned without throwing. -/
def exceptIsOk {ε α : Type} : Except ε α → Bool
  | Except.ok _ => true
  | Except.error _ => false

/-! ## Sample fixtures for witnesses and counterexamples -/

def sampleProgress : ProgressMetrics :=
  { junkCalories := 120, caloriesTarget := 2200, waterIntake := 3, waterTarget := 8,
    lastResetDate := 4, completedMealIndices := [0, 2], medicineTakenIndices := [],
    carriedMeds := false, molecularSynergyScore := 0,
    lastHydrationTime := none, nextHydrationTime := none }

def sampleBreakfast : Meal :=
  { id := none, title := "Poha", description := "Light flattened-rice dish",
    reason := "Gentle start", tasteProfile := "Savory", calories := some "250",
    type := "Breakfast", ingredients := none, cookingSteps := none,
    outsideOption := none, videoLink := none, bioActiveTag := none }

def sampleLunch : Meal :=
  { sampleBreakfast with title := "Dal Rice", type := "Lunch", calories := some "450" }

def samplePlan : DailyPlan :=
  { focus := "Steady energy", localGreeting := some "Namaskar!",
    meals := [sampleBreakfast, sampleLunch], medicineReminders := none,
    advice := none, bioMechanism := none, verifiedSources := none }

def sampleUserState : UserState :=
  { isAuthenticated := true, isLocalGuest := false, isPremium := false,
    generationsLeft := 0, mode := UserMode.CONSUMER, healthMode := HealthMode.GENERAL,
    customModeInput := none, goals := ["Improve Energy"], dietType := "Balanced",
    tastePreference := "Standard", hasMedicine := false, medicalCondition := none,
    prescriptionItems := [], language := "English", country := "India",
    state := "Maharashtra", city := "Pune", plan := none, progress := sampleProgress }

def samplePremiumUser : UserState :=
  { sampleUserState with isPremium := true, generationsLeft := 5 }

/-! ## Claim theorems -/

/-- C1: at the first session-state read of a new calendar day (stored
last-reset date differs from the current date) the calorie and water
counters and the completed-meal indices are zeroed and the stored reset
date becomes the current date; the reset happens exactly once per day — a
further read the same day, of the reset state or of any state already
stamped with today's date, changes nothing. -/
theorem progress_reset_once_per_day (p : ProgressMetrics) (today : Nat)
    (hnew : p.lastResetDate ≠ today) :
    ((resetProgressOnRead p today).junkCalories = 0 ∧
     (resetProgressOnRead p today).waterIntake = 0 ∧
     (resetProgressOnRead p today).completedMealIndices = [] ∧
     (resetProgressOnRead p today).lastResetDate = today) ∧
    resetProgressOnRead (resetProgressOnRead p today) today =
      resetProgressOnRead p today ∧
    (∀ q : ProgressMetrics, q.lastResetDate = today →
      resetProgressOnRead q today = q) := by
  refine ⟨?_, ?_, ?_⟩
  · simp [resetProgressOnRead, hnew]
  · simp [resetProgressOnRead, hnew]
  · intro q hq
    simp [resetProgressOnRead, hq]

theorem progress_reset_once_per_day_witness :
    ((resetProgressOnRead sampleProgress 5).junkCalories = 0 ∧
     (resetProgressOnRead sampleProgress 5).waterIntake = 0 ∧
     (resetProgressOnRead sampleProgress 5).completedMealIndices = [] ∧
     (resetProgressOnRead sampleProgress 5).lastResetDate = 5) ∧
    resetProgressOnRead (resetProgressOnRead sampleProgress 5) 5 =
      resetProgressOnRead sampleProgress 5 ∧
    (∀ q : ProgressMetrics, q.lastResetDate = 5 →
      resetProgressOnRead q 5 = q) :=
  progress_reset_once_per_day sampleProgress 5 (by decide)

/-- C2: permuting the ingredient list leaves the cache key of
`checkIngredientAvailability` unchanged, so any cache lookup lands on the
same entry. -/
theorem ingredient_cache_key_perm_invariant (city : String) (l1 l2 : List String)
    (hperm : l1.Perm l2) :
    ingredientCacheKey city l1 = ingredientCacheKey city l2 ∧
    ∀ cache : List (String × Json),
      lookupCache cache (ingredientCacheKey city l1) =
        lookupCache cache (ingredientCacheKey city l2) := by
  have hsort : List.insertionSort jsStringLe l1 = List.insertionSort jsStringLe l2 :=
    List.eq_of_perm_of_sorted
      (((List.perm_insertionSort jsStringLe l1).trans hperm).trans
        (List.perm_insertionSort jsStringLe l2).symm)
      (List.sorted_insertionSort jsStringLe l1)
      (List.sorted_insertionSort jsStringLe l2)
  have hkey : ingredientCacheKey city l1 = ingredientCacheKey city l2 := by
    unfold ingredientCacheKey
    rw [hsort]
  exact ⟨hkey, fun cache => by rw [hkey]⟩

theorem ingredient_cache_key_perm_invariant_witness :
    ingredientCacheKey "Pune" ["tomato", "rice"] =
      ingredientCacheKey "Pune" ["rice", "tomato"] :=
  (ingredient_cache_key_perm_invariant "Pune" ["tomato", "rice"] ["rice", "tomato"]
    (by decide)).1

/-- C6: a non-premium session with no generations left entering the
`GENERATING` screen is routed to the upgrade screen with the state
untouched (so `generationsLeft` is not decremented) and the flag recording
an adapter invocation `false`; the result does not depend on any adapter
outcome, i.e. `generateDailyPlan` is never consulted. -/
theorem generation_gate_blocks_without_credits (s : UserState)
    (hfree : s.isPremium = false) (hcred : s.generationsLeft ≤ 0) :
    ∀ adapterResult : Except String DailyPlan,
      runGeneratingEntry s adapterResult = (ScreenName.UPGRADE, s, false) := by
  intro r
  unfold runGeneratingEntry generatingGateBlocked
  simp [hfree, hcred]

theorem generation_gate_blocks_without_credits_witness :
    runGeneratingEntry sampleUserState (Except.error "network down") =
      (ScreenName.UPGRADE, sampleUserState, false) :=
  generation_gate_blocks_without_credits sampleUserState (by decide) (by decide)
    (Except.error "network down")

/-- C7: on the health-mode selection screen a locked mode (Disease-Focused
or Molecule-Match) routes to the upgrade screen with the state unchanged
when not premium, and sets `healthMode` and routes to the medicine-capture
screen when premium. -/
theorem health_mode_select_routing (s : UserState) (m : HealthMode)
    (hlocked : m = HealthMode.DISEASE_FOCUSED ∨ m = HealthMode.MOLECULE_MATCH) :
    (s.isPremium = false → selectHealthMode s m = (ScreenName.UPGRADE, s)) ∧
    (s.isPremium = true →
      selectHealthMode s m = (ScreenName.MEDICINE, { s with healthMode := m })) := by
  rcases hlocked with h | h <;> subst h <;>
    exact ⟨fun hp => by simp [selectHealthMode, hp],
           fun hp => by simp [selectHealthMode, hp]⟩

theorem health_mode_select_routing_witness :
    selectHealthMode sampleUserState HealthMode.DISEASE_FOCUSED =
      (ScreenName.UPGRADE, sampleUserState) ∧
    selectHealthMode samplePremiumUser HealthMode.MOLECULE_MATCH =
      (ScreenName.MEDICINE,
        { samplePremiumUser with healthMode := HealthMode.MOLECULE_MATCH }) :=
  ⟨(health_mode_select_routing sampleUserState HealthMode.DISEASE_FOCUSED
      (Or.inl rfl)).1 (by decide),
   (health_mode_select_routing samplePremiumUser HealthMode.MOLECULE_MATCH
      (Or.inr rfl)).2 (by decide)⟩

/-- C8: `handleHydrate` at instant `T` increments the water counter by one
and sets the next-allowed instant to exactly `T` plus 60 minutes; at every
instant strictly before it the hydration action is locked and its button
shows the countdown, and at that instant and ever after it is unlocked
again with the call-to-action restored. -/
theorem hydration_cooldown (s : UserState) (T : Nat) :
    ((handleHydrate s T).progress.waterIntake = s.progress.waterIntake + 1) ∧
    ((handleHydrate s T).progress.nextHydrationTime = some (T + 60 * 60 * 1000)) ∧
    (∀ t : Nat, t < T + 60 * 60 * 1000 →
      hydrationLocked (handleHydrate s T).progress t = true ∧
      hydrationButtonLabel (handleHydrate s T).progress t =
        hydrationCountdownText (T + 60 * 60 * 1000) t) ∧
    (∀ t : Nat, T + 60 * 60 * 1000 ≤ t →
      hydrationLocked (handleHydrate s T).progress t = false ∧
      hydrationButtonLabel (handleHydrate s T).progress t = "+ Drink Water") := by
  refine ⟨rfl, rfl, ?_, ?_⟩
  · intro t ht
    have hlock : hydrationLocked (handleHydrate s T).progress t = true := by
      simp only [handleHydrate, hydrationLocked]
      rw [decide_eq_true_eq]
      omega
    refine ⟨hlock, ?_⟩
    unfold hydrationButtonLabel
    rw [hlock]
    rfl
  · intro t ht
    have hlock : hydrationLocked (handleHydrate s T).progress t = false := by
      simp only [handleHydrate, hydrationLocked]
      rw [decide_eq_false_iff_not]
      omega
    refine ⟨hlock, ?_⟩
    unfold hydrationButtonLabel
    rw [hlock]
    rfl

theorem hydration_cooldown_witness :
    ((handleHydrate sampleUserState 1000).progress.waterIntake =
      sampleUserState.progress.waterIntake + 1) ∧
    ((handleHydrate sampleUserState 1000).progress.nextHydrationTime =
      some (1000 + 60 * 60 * 1000)) ∧
    (hydrationLocked (handleHydrate sampleUserState 1000).progress 5000 = true ∧
      hydrationButtonLabel (handleHydrate sampleUserState 1000).progress 5000 =
        hydrationCountdownText (1000 + 60 * 60 * 1000) 5000) ∧
    (hydrationLocked (handleHydrate sampleUserState 1000).progress 3601000 = false ∧
      hydrationButtonLabel (handleHydrate sampleUserState 1000).progress 3601000 =
        "+ Drink Water") :=
  ⟨(hydration_cooldown sampleUserState 1000).1,
   (hydration_cooldown sampleUserState 1000).2.1,
   (hydration_cooldown sampleUserState 1000).2.2.1 5000 (by decide),
   (hydration_cooldown sampleUserState 1000).2.2.2 3601000 (by decide)⟩

/-- C10: whenever `verifyLocationEntry` cannot obtain a pipe-delimited
response with at least three fields — missing API key, a throwing request,
or a response splitting into fewer than three parts — it returns the
input city and state with the country hard-coded to `"India"`. -/
theorem verify_location_fallback (city st : String) :
    (∀ (cached : Option LocationResult) (net : Except String String),
      verifyLocationEntry city st false cached net = Except.ok ⟨city, st, "India"⟩) ∧
    (∀ e, verifyLocationEntry city st true none (Except.error e) =
      Except.ok ⟨city, st, "India"⟩) ∧
    (∀ text : String, (jsSplit text '|').length < 3 →
      verifyLocationEntry city st true none (Except.ok text) =
        Except.ok ⟨city, st, "India"⟩) := by
  refine ⟨fun cached net => rfl, fun e => rfl, ?_⟩
  intro text hlen
  have hor : jsStrOr text "" = text := by
    unfold jsStrOr
    split
    · simp_all
    · rfl
  rcases hsplit : jsSplit text '|' with _ | ⟨a, _ | ⟨b, _ | ⟨c, rest⟩⟩⟩
  · simp [verifyLocationEntry, hor, hsplit]
  · simp [verifyLocationEntry, hor, hsplit]
  · simp [verifyLocationEntry, hor, hsplit]
  · rw [hsplit] at hlen
    simp only [List.length_cons] at hlen
    omega

theorem verify_location_fallback_witness :
    (verifyLocationEntry "Pune" "MH" false none (Except.error "boom") =
      Except.ok ⟨"Pune", "MH", "India"⟩) ∧
    (verifyLocationEntry "Pune" "MH" true none (Except.error "boom") =
      Except.ok ⟨"Pune", "MH", "India"⟩) ∧
    (verifyLocationEntry "Pune" "MH" true none (Except.ok "Sorry, not found") =
      Except.ok ⟨"Pune", "MH", "India"⟩) :=
  ⟨(verify_location_fallback "Pune" "MH").1 none (Except.error "boom"),
   (verify_location_fallback "Pune" "MH").2.1 "boom",
   (verify_location_fallback "Pune" "MH").2.2 "Sorry, not found" (by decide)⟩

/-- C3 counterexample: the input `"42"` contains no brace and no bracket,
yet `cleanAndParseJSON` returns the number `42`, not an empty object —
`JSON.parse` accepts bare literals. -/
theorem json_no_brace_counterexample : cleanAndParseJSON "42" ≠ Json.obj [] := by
  intro h
  have e : cleanAndParseJSON "42" = Json.num "42" := rfl
  rw [e] at h
  exact Json.noConfusion h

/-- C3 (amended): `cleanAndParseJSON` recovers the object from input
wrapped in markdown code fences and from input with a leading prose
sentence before the first brace; brace-free prose yields the empty object,
and in general every parse failure of the extracted text yields the empty
object instead of an exception. (Brace-free input that is itself a valid
bare JSON literal, such as `"42"`, parses and is returned as is.) -/
theorem clean_and_parse_json_recovery :
    (cleanAndParseJSON "```json\n\x7b\"a\": 1\x7d\n```" =
      Json.obj [("a", Json.num "1")]) ∧
    (cleanAndParseJSON "Here is the result: \x7b\"a\": 1\x7d" =
      Json.obj [("a", Json.num "1")]) ∧
    (cleanAndParseJSON "no json in this text at all" = Json.obj []) ∧
    (∀ s : String, parseJsonText (extractJsonCandidate s) = none →
      cleanAndParseJSON s = Json.obj []) := by
  refine ⟨rfl, rfl, rfl, ?_⟩
  intro s h
  unfold cleanAndParseJSON
  rw [h]

theorem clean_and_parse_json_recovery_witness :
    cleanAndParseJSON "The plan could not be generated, please retry." =
      Json.obj [] :=
  clean_and_parse_json_recovery.2.2.2
    "The plan could not be generated, please retry." rfl

theorem toggleIndex_twice_of_not_mem (l : List Int) (i : Int) (hi : i ∉ l) :
    toggleIndex (toggleIndex l i) i = l := by
  have hc : l.contains i = false := by simpa using hi
  have hfilter : l.filter (fun x => x != i) = l :=
    List.filter_eq_self.mpr (fun a ha => by
      simp only [bne_iff_ne, ne_eq, decide_eq_true_eq]
      intro hai
      exact hi (hai ▸ ha))
  unfold toggleIndex
  rw [hc]
  simp only [Bool.false_eq_true, if_false]
  have hc2 : (l ++ [i]).contains i = true := by simp
  rw [hc2]
  simp only [if_true, List.filter_append]
  rw [hfilter]
  simp

theorem mem_toggleIndex_twice (l : List Int) (i j : Int) :
    j ∈ toggleIndex (toggleIndex l i) i ↔ j ∈ l := by
  by_cases hi : i ∈ l
  · have hc : l.contains i = true := by simpa using hi
    have hc2 : (l.filter (fun x => x != i)).contains i = false := by
      simp
    unfold toggleIndex
    rw [hc]
    simp only [if_true]
    rw [hc2]
    simp only [Bool.false_eq_true, if_false, List.mem_append, List.mem_filter,
      List.mem_singleton, bne_iff_ne, ne_eq, decide_eq_true_eq]
    by_cases hj : j = i
    · subst hj
      simp [hi]
    · simp [hj]
  · rw [toggleIndex_twice_of_not_mem l i hi]

def c4State : UserState :=
  { sampleUserState with
    plan := some samplePlan,
    progress := { sampleProgress with completedMealIndices := [2, 5] } }

/-- C4 counterexample: in a session state with a plan and completed
indices `[2, 5]`, toggling meal 2 twice yields `[5, 2]`, not the original
list — the index is removed and then re-appended at the end. -/
theorem toggle_twice_counterexample :
    (handleToggleMeal (handleToggleMeal c4State 2) 2).progress.completedMealIndices ≠
      c4State.progress.completedMealIndices := by decide

/-- C4 (amended): toggling the same meal index twice always preserves the
SET of completed indices (membership is unchanged for every index), and
restores the list exactly whenever the toggled index was not initially
present; when it was present, the double toggle may move it to the end of
the list (counterexample above). -/
theorem toggle_twice_set_invariant (s : UserState) (i : Int) :
    (∀ j : Int,
      j ∈ (handleToggleMeal (handleToggleMeal s i) i).progress.completedMealIndices ↔
        j ∈ s.progress.completedMealIndices) ∧
    (i ∉ s.progress.completedMealIndices →
      handleToggleMeal (handleToggleMeal s i) i = s) := by
  constructor
  · intro j
    exact mem_toggleIndex_twice s.progress.completedMealIndices i j
  · intro hi
    show { s with progress := { s.progress with
        completedMealIndices :=
          toggleIndex (toggleIndex s.progress.completedMealIndices i) i } } = s
    rw [toggleIndex_twice_of_not_mem _ _ hi]

theorem toggle_twice_set_invariant_witness :
    ((5 : Int) ∈
        (handleToggleMeal (handleToggleMeal c4State 2) 2).progress.completedMealIndices ↔
      (5 : Int) ∈ c4State.progress.completedMealIndices) ∧
    handleToggleMeal (handleToggleMeal c4State 7) 7 = c4State :=
  ⟨(toggle_twice_set_invariant c4State 2).1 5,
   (toggle_twice_set_invariant c4State 7).2 (by decide)⟩

def snackFirst : Meal :=
  { sampleBreakfast with title := "Roasted Makhana", type := "Snack" }

def snackSecond : Meal :=
  { sampleBreakfast with title := "Sprout Chaat", type := "Snack" }

def snackReplacement : Meal :=
  { sampleBreakfast with title := "Fruit Bowl", type := "Snack" }

def c5State : UserState :=
  { sampleUserState with
    plan := some { samplePlan with meals := [snackFirst, snackSecond] } }

/-- C5 counterexample: with two meals of type `"Snack"`, replacing the
first (the targeted meal, index 0) by a regenerated snack also overwrites
the meal at index 1, because `handleMealUpdate` matches by `type` — a
non-targeted meal changes. -/
theorem meal_update_counterexample :
    ((handleMealUpdate c5State snackReplacement).plan.getD samplePlan).meals[1]? ≠
      (c5State.plan.getD samplePlan).meals[1]? := by decide

/-- C5 (amended): `handleMealUpdate` replaces by meal type: all plan
fields other than `meals` are unchanged; every meal whose type differs
from the replacement's type is unchanged; every meal of the replacement's
type becomes the replacement; hence, when the targeted meal's type equals
the replacement's type and no other meal shares it, only the targeted
position changes. -/
theorem meal_update_frame (s : UserState) (pl : DailyPlan) (hp : s.plan = some pl)
    (newMeal : Meal) :
    ((handleMealUpdate s newMeal).plan =
      some { pl with meals := replaceMealByType pl.meals newMeal }) ∧
    (∀ (j : Nat) (m : Meal), pl.meals[j]? = some m → m.type ≠ newMeal.type →
      (replaceMealByType pl.meals newMeal)[j]? = some m) ∧
    (∀ (t : Nat) (m : Meal), pl.meals[t]? = some m → m.type = newMeal.type →
      (replaceMealByType pl.meals newMeal)[t]? = some newMeal) ∧
    (∀ (t : Nat) (m : Meal), pl.meals[t]? = some m → m.type = newMeal.type →
      (∀ (j : Nat) (m2 : Meal), pl.meals[j]? = some m2 → j ≠ t →
        m2.type ≠ newMeal.type) →
      ∀ j : Nat, j ≠ t →
        (replaceMealByType pl.meals newMeal)[j]? = pl.meals[j]?) := by
  refine ⟨?_, ?_, ?_, ?_⟩
  · unfold handleMealUpdate
    rw [hp]
  · intro j m hj hne
    unfold replaceMealByType
    rw [List.getElem?_map, hj]
    simp [hne]
  · intro t m ht heq
    unfold replaceMealByType
    rw [List.getElem?_map, ht]
    simp [heq]
  · intro t m ht heq huniq j hj
    unfold replaceMealByType
    rw [List.getElem?_map]
    cases hm : pl.meals[j]? with
    | none => rfl
    | some m2 =>
      have hne : m2.type ≠ newMeal.type := huniq j m2 hm hj
      simp [hne]

def c5DistinctState : UserState := { sampleUserState with plan := some samplePlan }

def breakfastReplacement : Meal := { sampleBreakfast with title := "Idli Sambar" }

theorem meal_update_frame_witness :
    ((handleMealUpdate c5DistinctState breakfastReplacement).plan =
      some { samplePlan with
             meals := replaceMealByType samplePlan.meals breakfastReplacement }) ∧
    (replaceMealByType samplePlan.meals breakfastReplacement)[1]? =
      some sampleLunch :=
  ⟨(meal_update_frame c5DistinctState samplePlan rfl breakfastReplacement).1,
   (meal_update_frame c5DistinctState samplePlan rfl breakfastReplacement).2.1
     1 sampleLunch rfl (by decide)⟩

/-! Helper lemmas for the adapter error-handling claim: each non-critical
adapter returns `ok` (a real value or its fallback) for every input. -/

theorem verifyLocationEntry_ok (ic st : String) (k : Bool)
    (c : Option LocationResult) (n : Except String String) :
    exceptIsOk (verifyLocationEntry ic st k c n) = true := by
  unfold verifyLocationEntry
  repeat' split
  all_goals rfl

theorem detectLocationFromCoords_ok (k : Bool) (n : Except String String) :
    exceptIsOk (detectLocationFromCoords k n) = true := by
  unfold detectLocationFromCoords
  repeat' split
  all_goals rfl

theorem generateCorporateInsights_ok (k : Bool) (c : Option Json)
    (n : Except String String) :
    exceptIsOk (generateCorporateInsights k c n) = true := by
  unfold generateCorporateInsights
  repeat' split
  all_goals rfl

theorem findCookingVideo_ok (k : Bool) (r : String)
    (b : Except String (List String)) :
    exceptIsOk (findCookingVideo k r b) = true := by
  unfold findCookingVideo
  repeat' split
  all_goals rfl

theorem findDeliveryPartners_ok (k : Bool) (c : Option Json)
    (n : Except String String) :
    exceptIsOk (findDeliveryPartners k c n) = true := by
  unfold findDeliveryPartners
  repeat' split
  all_goals rfl

theorem findLocalGrocers_ok (k : Bool) (c : Option Json)
    (n : Except String String) :
    exceptIsOk (findLocalGrocers k c n) = true := by
  unfold findLocalGrocers
  exact findDeliveryPartners_ok k c n

theorem checkIngredientAvailability_ok (k : Bool) (city : String)
    (ing : List String) (cache : List (String × Json)) (n : Except String String) :
    exceptIsOk (checkIngredientAvailability k city ing cache n) = true := by
  unfold checkIngredientAvailability
  repeat' split
  all_goals rfl

theorem findRestaurantOptions_ok (k : Bool) (city dish : String)
    (c : Option (List LocalService))
    (n : Except String (String × List (String × String))) :
    exceptIsOk (findRestaurantOptions k city dish c n) = true := by
  unfold findRestaurantOptions
  repeat' split
  all_goals try rfl
  all_goals dsimp only
  all_goals repeat' split
  all_goals rfl

theorem findPharmacies_ok (k : Bool) (c : Option (List LocalService))
    (n : Except String String) :
    exceptIsOk (findPharmacies k c n) = true := by
  unfold findPharmacies
  repeat' split
  all_goals rfl

theorem findOnlinePharmacies_ok (k : Bool) (c : Option Json)
    (n : Except String String) :
    exceptIsOk (findOnlinePharmacies k c n) = true := by
  unfold findOnlinePharmacies
  repeat' split
  all_goals rfl

theorem generateGoalsForContext_ok (ctx : String) (k : Bool)
    (n : Except String String) :
    exceptIsOk (generateGoalsForContext ctx k n) = true := by
  unfold generateGoalsForContext
  repeat' split
  all_goals rfl

theorem analyzeHealthCondition_ok (k : Bool) (n : Except String String) :
    exceptIsOk (analyzeHealthCondition k n) = true := by
  unfold analyzeHealthCondition
  repeat' split
  all_goals rfl

theorem generateJunkFoodAdvice_ok (k : Bool) (n : Except String String) :
    exceptIsOk (generateJunkFoodAdvice k n) = true := by
  unfold generateJunkFoodAdvice
  repeat' split
  all_goals rfl

theorem analyzeNutrition_ok (k : Bool) (n : Except String String) :
    exceptIsOk (analyzeNutrition k n) = true := by
  unfold analyzeNutrition
  repeat' split
  all_goals rfl

theorem analyzeFoodText_ok (f : String) (k : Bool) (n : Except String String) :
    exceptIsOk (analyzeFoodText f k n) = true := by
  unfold analyzeFoodText
  repeat' split
  all_goals rfl

theorem generateRecipeFromImage_ok (k : Bool) (n : Except String String) :
    exceptIsOk (generateRecipeFromImage k n) = true := by
  unfold generateRecipeFromImage
  repeat' split
  all_goals rfl

theorem simulateWearableData_ok (k : Bool) (t d : String)
    (n : Except String String) :
    exceptIsOk (simulateWearableData k t d n) = true := by
  unfold simulateWearableData
  repeat' split
  all_goals rfl

theorem generateWearableInsight_ok (k : Bool) (n : Except String String) :
    exceptIsOk (generateWearableInsight k n) = true := by
  unfold generateWearableInsight
  repeat' split
  all_goals rfl

theorem regenerateMealOption_ok (k : Bool) (m : Json) (n : Except String String) :
    exceptIsOk (regenerateMealOption k m n) = true := by
  unfold regenerateMealOption
  repeat' split
  all_goals rfl

theorem editImageWithGenAI_ok (k : Bool) (b : Except String (Option String)) :
    exceptIsOk (editImageWithGenAI k b) = true := by
  unfold editImageWithGenAI
  repeat' split
  all_goals rfl

theorem chatWithHealthBot_ok (k : Bool) (n : Except String String) :
    exceptIsOk (chatWithHealthBot k n) = true := by
  unfold chatWithHealthBot
  repeat' split
  all_goals rfl

theorem transcribeAudio_ok (k : Bool) (n : Except String String) :
    exceptIsOk (transcribeAudio k n) = true := by
  unfold transcribeAudio
  repeat' split
  all_goals rfl

theorem generateSpeech_ok (k : Bool) (b : Except String (Option String)) :
    exceptIsOk (generateSpeech k b) = true := by
  unfold generateSpeech
  repeat' split
  all_goals rfl

theorem analyzeCookingStep_ok (k : Bool) (n : Except String String) :
    exceptIsOk (analyzeCookingStep k n) = true := by
  unfold analyzeCookingStep
  repeat' split
  all_goals rfl

/-- C9: the screen controller turns a plan-generation failure into a route
back to the preferences screen with the session state — including any
existing plan — untouched; `generateDailyPlan` is the one adapter that
propagates its failure (its catch rethrows); and every other
external-service adapter returns `ok` — a value or its documented
fallback — for every combination of API-key presence, cache state and
network outcome, never letting a failure escape its boundary. -/
theorem adapters_error_handling :
    (∀ (s : UserState) (e : String), generatingGateBlocked s = false →
      runGeneratingEntry s (Except.error e) = (ScreenName.PREFERENCES, s, true)) ∧
    (∀ e : String, generateDailyPlan (Except.error e) = Except.error e) ∧
    (∀ (ic st : String) (k : Bool) (c : Option LocationResult)
        (n : Except String String),
      exceptIsOk (verifyLocationEntry ic st k c n) = true) ∧
    (∀ (k : Bool) (n : Except String String),
      exceptIsOk (detectLocationFromCoords k n) = true) ∧
    (∀ (k : Bool) (c : Option Json) (n : Except String String),
      exceptIsOk (generateCorporateInsights k c n) = true) ∧
    (∀ (k : Bool) (r : String) (b : Except String (List String)),
      exceptIsOk (findCookingVideo k r b) = true) ∧
    (∀ (k : Bool) (c : Option Json) (n : Except String String),
      exceptIsOk (findDeliveryPartners k c n) = true) ∧
    (∀ (k : Bool) (c : Option Json) (n : Except String String),
      exceptIsOk (findLocalGrocers k c n) = true) ∧
    (∀ (k : Bool) (city : String) (ing : List String)
        (cache : List (String × Json)) (n : Except String String),
      exceptIsOk (checkIngredientAvailability k city ing cache n) = true) ∧
    (∀ (k : Bool) (city dish : String) (c : Option (List LocalService))
        (n : Except String (String × List (String × String))),
      exceptIsOk (findRestaurantOptions k city dish c n) = true) ∧
    (∀ (k : Bool) (c : Option (List LocalService)) (n : Except String String),
      exceptIsOk (findPharmacies k c n) = true) ∧
    (∀ (k : Bool) (c : Option Json) (n : Except String String),
      exceptIsOk (findOnlinePharmacies k c n) = true) ∧
    (∀ (ctx : String) (k : Bool) (n : Except String String),
      exceptIsOk (generateGoalsForContext ctx k n) = true) ∧
    (∀ (k : Bool) (n : Except String String),
      exceptIsOk (analyzeHealthCondition k n) = true) ∧
    (∀ (k : Bool) (n : Except String String),
      exceptIsOk (generateJunkFoodAdvice k n) = true) ∧
    (∀ (k : Bool) (n : Except String String),
      exceptIsOk (analyzeNutrition k n) = true) ∧
    (∀ (f : String) (k : Bool) (n : Except String String),
      exceptIsOk (analyzeFoodText f k n) = true) ∧
    (∀ (k : Bool) (n : Except String String),
      exceptIsOk (generateRecipeFromImage k n) = true) ∧
    (∀ (k : Bool) (t d : String) (n : Except String String),
      exceptIsOk (simulateWearableData k t d n) = true) ∧
    (∀ (k : Bool) (n : Except String String),
      exceptIsOk (generateWearableInsight k n) = true) ∧
    (∀ (k : Bool) (m : Json) (n : Except String String),
      exceptIsOk (regenerateMealOption k m n) = true) ∧
    (∀ (k : Bool) (b : Except String (Option String)),
      exceptIsOk (editImageWithGenAI k b) = true) ∧
    (∀ (k : Bool) (n : Except String String),
      exceptIsOk (chatWithHealthBot k n) = true) ∧
    (∀ (k : Bool) (n : Except String String),
      exceptIsOk (transcribeAudio k n) = true) ∧
    (∀ (k : Bool) (b : Except String (Option String)),
      exceptIsOk (generateSpeech k b) = true) ∧
    (∀ (k : Bool) (n : Except String String),
      exceptIsOk (analyzeCookingStep k n) = true) := by
  refine ⟨?_, fun e => rfl, verifyLocationEntry_ok, detectLocationFromCoords_ok,
    generateCorporateInsights_ok, findCookingVideo_ok, findDeliveryPartners_ok,
    findLocalGrocers_ok, checkIngredientAvailability_ok, findRestaurantOptions_ok,
    findPharmacies_ok, findOnlinePharmacies_ok, generateGoalsForContext_ok,
    analyzeHealthCondition_ok, generateJunkFoodAdvice_ok, analyzeNutrition_ok,
    analyzeFoodText_ok, generateRecipeFromImage_ok, simulateWearableData_ok,
    generateWearableInsight_ok, regenerateMealOption_ok, editImageWithGenAI_ok,
    chatWithHealthBot_ok, transcribeAudio_ok, generateSpeech_ok,
    analyzeCookingStep_ok⟩
  intro s e h
  unfold runGeneratingEntry
  rw [h]
  rfl

theorem adapters_error_handling_witness :
    runGeneratingEntry samplePremiumUser (Except.error "quota exceeded") =
      (ScreenName.PREFERENCES, samplePremiumUser, true) :=
  adapters_error_handling.1 samplePremiumUser "quota exceeded" (by decide)
